import Mathlib

/-!
Verification of the quiz backend's grading, adaptive-difficulty, streak,
progress/achievement, document-pipeline, embedding and retrieval logic,
shallowly embedded from `app/services/*.py`.
-/

namespace MindQuest

/-! ### Answer values

`QuizEvaluatorService._check_answer` receives the stored `correct_answer`
(JSON: a string for single-choice / true-false, a list of strings for
multi-select) and the submitted answer from the request payload (possibly
missing). `AnsVal.none` models a missing answer (`answers.get` returning
`None`). `falsy` models Python truthiness (`not user_answer`). -/

inductive AnsVal where
  | none
  | str (s : String)
  | list (xs : List String)
  deriving DecidableEq, Repr

def AnsVal.falsy : AnsVal → Bool
  | .none => true
  | .str s => s == ""
  | .list xs => xs == []

/-- Python `==` between two JSON-ish values: cross-type comparison is `False`,
same-type comparison is structural equality. -/
def pyEq : AnsVal → AnsVal → Bool
  | .none, .none => true
  | .str a, .str b => a == b
  | .list a, .list b => a == b
  | _, _ => false

/-- Python `sorted` on a list of strings (lexicographic order). -/
def sortStrings (xs : List String) : List String :=
  xs.insertionSort (· ≤ ·)

/-- The fields of a `Question` row that grading reads
(`question_type`, `correct_answer`, `difficulty`, `domain`). -/
structure GQuestion where
  question_type : String
  correct_answer : AnsVal
  difficulty : String
  domain : String
  deriving DecidableEq, Repr

/-- `QuizEvaluatorService._check_answer`: a falsy submitted answer is
incorrect; for `multi_select` questions both sides are coerced to sorted
lists (non-lists coerce to `[]`) and compared; otherwise Python `==`. -/
def checkAnswer (q : GQuestion) (user_answer : AnsVal) : Bool :=
  if user_answer.falsy then false
  else if q.question_type == "multi_select" then
    let correct_answers :=
      match q.correct_answer with
      | .list xs => sortStrings xs
      | _ => []
    let user_answers :=
      match user_answer with
      | .list xs => sortStrings xs
      | _ => []
    correct_answers == user_answers
  else pyEq user_answer q.correct_answer

lemma sortStrings_eq_iff_perm (xs ys : List String) :
    sortStrings xs = sortStrings ys ↔ xs.Perm ys := by
  constructor
  · intro h
    have h1 : xs.Perm (sortStrings xs) := (List.perm_insertionSort _ xs).symm
    have h2 : (sortStrings ys).Perm ys := List.perm_insertionSort _ ys
    exact h1.trans (h.symm ▸ h2)
  · intro h
    have h1 : (sortStrings xs).Perm (sortStrings ys) :=
      ((List.perm_insertionSort _ xs).trans h).trans
        (List.perm_insertionSort _ ys).symm
    exact List.eq_of_perm_of_sorted h1
      (List.sorted_insertionSort _ xs) (List.sorted_insertionSort _ ys)

/-- Claim C3: a missing/empty submitted answer always grades incorrect; a
multi-select question with correct list `cs` grades a submitted list `xs`
correct iff `xs` equals `cs` up to element order (exact match, no partial
credit); every other question type with correct string `c` grades a
submitted string `s` correct iff `s = c`. -/
theorem check_answer_correctness (q : GQuestion) (cs : List String) (c : String) :
    (∀ ua : AnsVal, ua.falsy = true → checkAnswer q ua = false) ∧
    (q.question_type = "multi_select" → q.correct_answer = .list cs →
      ∀ xs : List String, xs ≠ [] →
        (checkAnswer q (.list xs) = true ↔ xs.Perm cs)) ∧
    (q.question_type ≠ "multi_select" → q.correct_answer = .str c →
      ∀ s : String, s ≠ "" →
        (checkAnswer q (.str s) = true ↔ s = c)) := by
  refine ⟨?_, ?_, ?_⟩
  · intro ua hua
    simp [checkAnswer, hua]
  · intro hty hca xs hxs
    have hfalsy : (AnsVal.list xs).falsy = false := by
      simp [AnsVal.falsy, hxs]
    simp only [checkAnswer, hfalsy, Bool.false_eq_true, if_false, hty, hca,
      beq_self_eq_true, if_true, beq_iff_eq]
    rw [eq_comm]
    exact sortStrings_eq_iff_perm xs cs
  · intro hty hca s hs
    have hfalsy : (AnsVal.str s).falsy = false := by
      simp [AnsVal.falsy, hs]
    have hty2 : (q.question_type == "multi_select") = false := by
      simp [hty]
    simp [checkAnswer, hfalsy, hty2, hca, pyEq]

/-- Witness for C3 at concrete inputs: the empty list grades incorrect, a
permuted multi-select submission grades correct, and a single-choice exact
match grades correct. -/
theorem check_answer_correctness_witness :
    checkAnswer ⟨"multi_select", .list ["A", "B"], "medium", "IAM"⟩ (.list []) = false ∧
    checkAnswer ⟨"multi_select", .list ["A", "B"], "medium", "IAM"⟩ (.list ["B", "A"]) = true ∧
    checkAnswer ⟨"multiple_choice", .str "A", "easy", "EC2"⟩ (.str "A") = true := by
  have h := check_answer_correctness
    ⟨"multi_select", .list ["A", "B"], "medium", "IAM"⟩ ["A", "B"] ""
  have h2 := check_answer_correctness
    ⟨"multiple_choice", .str "A", "easy", "EC2"⟩ [] "A"
  refine ⟨h.1 (.list []) (by decide), ?_, ?_⟩
  · exact (h.2.1 rfl rfl ["B", "A"] (by decide)).mpr (by decide)
  · exact (h2.2.2 (by decide) rfl "A" (by decide)).mpr rfl

/-! ### Scoring, XP, accuracy and next difficulty

Embeds the per-question loop and the aggregate computations of
`QuizEvaluatorService.evaluate_quiz`. Accuracy is a rational number
(`score / total * 100`, `0` for an empty quiz). -/

/-- XP for one correct question:
`if easy then 5 elif medium then 10 else 20`. -/
def xpFor (difficulty : String) : Nat :=
  if difficulty == "easy" then 5
  else if difficulty == "medium" then 10
  else 20

/-- XP recorded on one question row: `xpFor` its difficulty when graded
correct, else `0`. -/
def questionXp (q : GQuestion) (ua : AnsVal) : Nat :=
  if checkAnswer q ua then xpFor q.difficulty else 0

/-- One iteration of the evaluation loop: bump `score` and `total_xp`
when the question is graded correct. -/
def evalStepFn (acc : Nat × Nat) (p : GQuestion × AnsVal) : Nat × Nat :=
  if checkAnswer p.1 p.2 then (acc.1 + 1, acc.2 + xpFor p.1.difficulty)
  else acc

/-- The evaluation loop over the quiz's questions paired with the
submitted answers, accumulating `(score, total_xp)` from `(0, 0)`. -/
def evalLoop (qs : List (GQuestion × AnsVal)) : Nat × Nat :=
  qs.foldl evalStepFn (0, 0)

/-- `accuracy = (score / len(questions)) * 100 if questions else 0`. -/
def quizAccuracy (score : Nat) (total : Nat) : ℚ :=
  if total = 0 then 0 else (score : ℚ) / (total : ℚ) * 100

/-- The next-difficulty selection of `evaluate_quiz`: step up when
`accuracy >= 80`, step down when `accuracy < 50`, else unchanged. -/
def nextDifficulty (accuracy : ℚ) (difficulty : String) : String :=
  if 80 ≤ accuracy then
    if difficulty == "easy" then "medium"
    else if difficulty == "medium" then "hard"
    else difficulty
  else if accuracy < 50 then
    if difficulty == "hard" then "medium"
    else if difficulty == "medium" then "easy"
    else difficulty
  else difficulty

/-- The fields of the evaluation result relevant to scoring claims. -/
structure EvalResult where
  score : Nat
  total_questions : Nat
  accuracy : ℚ
  xp_earned : Nat
  next_difficulty : String
  deriving DecidableEq, Repr

/-- `evaluate_quiz` restricted to its pure scoring core: grade every
question, aggregate score/XP/accuracy and pick the next difficulty. -/
def evaluateQuiz (difficulty : String) (qs : List (GQuestion × AnsVal)) :
    EvalResult :=
  let sx := evalLoop qs
  let accuracy := quizAccuracy sx.1 qs.length
  { score := sx.1
    total_questions := qs.length
    accuracy := accuracy
    xp_earned := sx.2
    next_difficulty := nextDifficulty accuracy difficulty }

lemma evalLoop_aux (qs : List (GQuestion × AnsVal)) :
    ∀ acc : Nat × Nat,
      qs.foldl evalStepFn acc =
        (acc.1 + (qs.filter fun p => checkAnswer p.1 p.2).length,
         acc.2 + (qs.map fun p => questionXp p.1 p.2).sum) := by
  induction qs with
  | nil => intro acc; simp
  | cons hd tl ih =>
    intro acc
    by_cases hc : checkAnswer hd.1 hd.2 = true
    · rw [List.foldl_cons, ih]
      simp only [evalStepFn, hc, if_true, List.filter_cons, List.map_cons,
        List.length_cons, List.sum_cons, questionXp]
      refine Prod.ext ?_ ?_ <;> simp <;> omega
    · rw [List.foldl_cons, ih]
      simp only [evalStepFn, hc, Bool.false_eq_true, if_false,
        List.filter_cons, List.map_cons, List.sum_cons, questionXp]
      refine Prod.ext ?_ ?_ <;> simp [hc]

lemma evalLoop_eq (qs : List (GQuestion × AnsVal)) :
    evalLoop qs =
      ((qs.filter fun p => checkAnswer p.1 p.2).length,
       (qs.map fun p => questionXp p.1 p.2).sum) := by
  have h := evalLoop_aux qs (0, 0)
  simpa [evalLoop] using h

/-- Claim C6: score counts the correctly answered questions; quiz XP is the
sum of per-question XP, which is 5/10/20 for a correct easy/medium/other
question and 0 for an incorrect one; accuracy is `score / total * 100`,
and `0` for an empty quiz. -/
theorem evaluate_quiz_scoring (difficulty : String)
    (qs : List (GQuestion × AnsVal)) :
    (evaluateQuiz difficulty qs).score =
      (qs.filter fun p => checkAnswer p.1 p.2).length ∧
    (evaluateQuiz difficulty qs).xp_earned =
      (qs.map fun p => questionXp p.1 p.2).sum ∧
    (∀ q ua, checkAnswer q ua = true → questionXp q ua = xpFor q.difficulty) ∧
    (∀ q ua, checkAnswer q ua = false → questionXp q ua = 0) ∧
    xpFor "easy" = 5 ∧ xpFor "medium" = 10 ∧
    (∀ d : String, d ≠ "easy" → d ≠ "medium" → xpFor d = 20) ∧
    (evaluateQuiz difficulty qs).accuracy =
      (if qs.length = 0 then 0
       else ((qs.filter fun p => checkAnswer p.1 p.2).length : ℚ) /
         (qs.length : ℚ) * 100) := by
  refine ⟨?_, ?_, ?_, ?_, rfl, rfl, ?_, ?_⟩
  · simp [evaluateQuiz, evalLoop_eq]
  · simp [evaluateQuiz, evalLoop_eq]
  · intro q ua h; simp [questionXp, h]
  · intro q ua h; simp [questionXp, h]
  · intro d h1 h2
    have b1 : (d == "easy") = false := by simp [h1]
    have b2 : (d == "medium") = false := by simp [h2]
    simp [xpFor, b1, b2]
  · simp [evaluateQuiz, evalLoop_eq, quizAccuracy]

/-- Witness for C6: a two-question medium quiz with one correct easy answer
scores 1, earns 5 XP in total, and the correct question's XP is 5. -/
theorem evaluate_quiz_scoring_witness :
    (evaluateQuiz "medium"
      [(⟨"multiple_choice", .str "A", "easy", "EC2"⟩, .str "A"),
       (⟨"true_false", .str "True", "hard", "IAM"⟩, .str "False")]).score = 1 ∧
    (evaluateQuiz "medium"
      [(⟨"multiple_choice", .str "A", "easy", "EC2"⟩, .str "A"),
       (⟨"true_false", .str "True", "hard", "IAM"⟩, .str "False")]).xp_earned = 5 ∧
    questionXp ⟨"multiple_choice", .str "A", "easy", "EC2"⟩ (.str "A") = 5 := by
  have h := evaluate_quiz_scoring "medium"
    [(⟨"multiple_choice", .str "A", "easy", "EC2"⟩, .str "A"),
     (⟨"true_false", .str "True", "hard", "IAM"⟩, .str "False")]
  refine ⟨?_, ?_, ?_⟩
  · rw [h.1]; decide
  · rw [h.2.1]; decide
  · have h5 := h.2.2.1 ⟨"multiple_choice", .str "A", "easy", "EC2"⟩
      (.str "A") (by decide)
    rw [h5]; decide

/-- The spec's step-up policy: easy→medium→hard, capped at hard. -/
def specStepUp (d : String) : String :=
  if d = "easy" then "medium" else if d = "medium" then "hard" else "hard"

/-- The spec's step-down policy: hard→medium→easy, capped at easy. -/
def specStepDown (d : String) : String :=
  if d = "hard" then "medium" else if d = "medium" then "easy" else "easy"

/-- Claim C4: for the three difficulty levels, the next difficulty steps up
one level when accuracy is at least 80, steps down one level when accuracy
is below 50, and is unchanged otherwise. -/
theorem next_difficulty_policy (accuracy : ℚ) (d : String)
    (hd : d = "easy" ∨ d = "medium" ∨ d = "hard") :
    nextDifficulty accuracy d =
      if 80 ≤ accuracy then specStepUp d
      else if accuracy < 50 then specStepDown d
      else d := by
  rcases hd with h | h | h <;> subst h <;>
    simp [nextDifficulty, specStepUp, specStepDown]

/-- Witness for C4: accuracy 85 on a medium quiz steps up to hard. -/
theorem next_difficulty_policy_witness :
    nextDifficulty 85 "medium" = "hard" := by
  have h := next_difficulty_policy 85 "medium" (Or.inr (Or.inl rfl))
  rw [h, if_pos (by norm_num)]; decide

/-- Claim C10: evaluating a quiz with no questions yields accuracy 0, and
since 0 is below the step-down threshold the next difficulty is one level
below the quiz's difficulty (medium→easy, hard→medium). -/
theorem empty_quiz_steps_down :
    (∀ d : String, (evaluateQuiz d []).accuracy = 0) ∧
    (evaluateQuiz "medium" []).next_difficulty = "easy" ∧
    (evaluateQuiz "hard" []).next_difficulty = "medium" := by
  refine ⟨?_, ?_, ?_⟩
  · intro d
    simp [evaluateQuiz, evalLoop, quizAccuracy]
  · decide
  · decide

/-! ### Streak update

Embeds the streak section of `evaluate_quiz`. Calendar dates are modelled
as day numbers (`Int`); the code parses `YYYY-MM-DD` strings and takes
`(current_date - last_date).days`, which is exactly the difference of day
numbers. `current_streak` is nullable in the database (`or 0` in the
code), `last_quiz_date` is nullable. -/

structure StreakProfile where
  current_streak : Option Nat
  last_quiz_date : Option Int
  deriving DecidableEq, Repr

/-- The streak/date update of `evaluate_quiz`: no prior date gives streak 1;
a day difference of exactly 1 increments; more than 1 resets to 1; any other
difference leaves the streak as `current_streak or 0`. The last-quiz date is
then set to today unconditionally. -/
def updateStreak (today : Int) (p : StreakProfile) : StreakProfile :=
  let s := p.current_streak.getD 0
  let new_streak :=
    match p.last_quiz_date with
    | Option.none => 1
    | Option.some last =>
      let days_diff := today - last
      if days_diff = 1 then s + 1
      else if 1 < days_diff then 1
      else s
  { current_streak := some new_streak, last_quiz_date := some today }

/-- Claim C5: the new streak is 1 with no prior quiz date, old streak + 1
when the last quiz was exactly 1 day ago, 1 when it was more than 1 day
ago, and unchanged on the same day; afterwards the last-quiz date is
today. -/
theorem streak_policy (today : Int) (p : StreakProfile) (s : Nat)
    (hs : p.current_streak = some s) :
    (p.last_quiz_date = none →
      (updateStreak today p).current_streak = some 1) ∧
    (∀ last : Int, p.last_quiz_date = some last → today - last = 1 →
      (updateStreak today p).current_streak = some (s + 1)) ∧
    (∀ last : Int, p.last_quiz_date = some last → 1 < today - last →
      (updateStreak today p).current_streak = some 1) ∧
    (∀ last : Int, p.last_quiz_date = some last → today - last = 0 →
      (updateStreak today p).current_streak = some s) ∧
    (updateStreak today p).last_quiz_date = some today := by
  refine ⟨?_, ?_, ?_, ?_, rfl⟩
  · intro h; simp [updateStreak, h]
  · intro last h hd; simp [updateStreak, h, hd, hs]
  · intro last h hd
    have h1 : ¬ (today - last = 1) := by omega
    simp [updateStreak, h, h1, hd]
  · intro last h hd
    have h1 : ¬ (today - last = 1) := by omega
    have h2 : ¬ (1 < today - last) := by omega
    simp [updateStreak, h, h1, h2, hs]

/-- Witness for C5: last quiz yesterday (day 10, today day 11) with streak 3
gives streak 4 and last-quiz date 11. -/
theorem streak_policy_witness :
    (updateStreak 11 ⟨some 3, some 10⟩).current_streak = some 4 ∧
    (updateStreak 11 ⟨some 3, some 10⟩).last_quiz_date = some 11 := by
  have h := streak_policy 11 ⟨some 3, some 10⟩ 3 rfl
  exact ⟨h.2.1 10 rfl (by norm_num), h.2.2.2.2⟩

/-! ### Progress accumulation and the "100 Questions" achievement

Embeds the progress-upsert and milestone section of `evaluate_quiz`: the
per-(user, certification) progress row is created on first evaluation and
accumulated afterwards; the "100 Questions" achievement is inserted only
when the cumulative total reaches 100 and no achievement row with that
name exists for the user. -/

structure ProgressState where
  total_questions_answered : Option Nat
  achievements : List String
  deriving DecidableEq, Repr

/-- Cumulative questions answered after this evaluation: an existing row
accumulates `(total or 0) + len(questions)`; a missing row is created with
`len(questions)`. -/
def newTotalQuestions (st : ProgressState) (numQuestions : Nat) : Nat :=
  st.total_questions_answered.getD 0 + numQuestions

/-- One evaluation's effect on the progress row and the "100 Questions"
milestone: update the cumulative total, then insert the achievement iff the
total reached 100 and no row with that name exists. -/
def evalProgressStep (numQuestions : Nat) (st : ProgressState) :
    ProgressState :=
  let newTotal := newTotalQuestions st numQuestions
  let ach :=
    if 100 ≤ newTotal ∧ "100 Questions" ∉ st.achievements then
      st.achievements ++ ["100 Questions"]
    else st.achievements
  { total_questions_answered := some newTotal, achievements := ach }

/-- Claim C7: starting with no "100 Questions" row, an evaluation that
brings the cumulative total to at least 100 inserts exactly one such row;
a second evaluation (whose total also stays at or above 100) does not
insert another, leaving exactly one row. -/
theorem milestone_awarded_once (st : ProgressState) (n1 n2 : Nat)
    (h0 : st.achievements.count "100 Questions" = 0)
    (h1 : 100 ≤ newTotalQuestions st n1) :
    (evalProgressStep n1 st).achievements.count "100 Questions" = 1 ∧
    100 ≤ newTotalQuestions (evalProgressStep n1 st) n2 ∧
    (evalProgressStep n2 (evalProgressStep n1 st)).achievements.count
      "100 Questions" = 1 := by
  have hnotmem : "100 Questions" ∉ st.achievements :=
    (List.count_eq_zero.mp h0)
  have hstep1 : (evalProgressStep n1 st).achievements =
      st.achievements ++ ["100 Questions"] := by
    simp [evalProgressStep, if_pos, h1, hnotmem]
  have hcount1 : (evalProgressStep n1 st).achievements.count
      "100 Questions" = 1 := by
    rw [hstep1, List.count_append, h0]
    simp
  have htotal1 : (evalProgressStep n1 st).total_questions_answered =
      some (newTotalQuestions st n1) := rfl
  have htotal2 : 100 ≤ newTotalQuestions (evalProgressStep n1 st) n2 := by
    have hg : (evalProgressStep n1 st).total_questions_answered.getD 0 =
        newTotalQuestions st n1 := by rw [htotal1]; rfl
    unfold newTotalQuestions
    rw [hg]
    omega
  have hmem : "100 Questions" ∈ (evalProgressStep n1 st).achievements := by
    rw [hstep1]; simp
  have hskip : ∀ (s : ProgressState) (m : Nat),
      "100 Questions" ∈ s.achievements →
      (evalProgressStep m s).achievements = s.achievements := by
    intro s m hm
    simp [evalProgressStep, hm]
  have hstep2 : (evalProgressStep n2 (evalProgressStep n1 st)).achievements =
      (evalProgressStep n1 st).achievements := hskip _ n2 hmem
  exact ⟨hcount1, htotal2, by rw [hstep2]; exact hcount1⟩

/-- Witness for C7: from a fresh progress state, a 100-question evaluation
followed by a 5-question one yields exactly one "100 Questions" row. -/
theorem milestone_awarded_once_witness :
    (evalProgressStep 5 (evalProgressStep 100
      ⟨Option.none, []⟩)).achievements.count "100 Questions" = 1 := by
  have h := milestone_awarded_once ⟨Option.none, []⟩ 100 5
    (by decide) (by decide)
  exact h.2.2

/-! ### Document pipeline failure isolation

Embeds the per-document processing of
`QuizGeneratorService.generate_quiz` (and, identically,
`CertificationService.process_document_sync`): each unprocessed document
runs download+extract+chunk (`document_processor.process_document`), then
embedding (`embed_texts`), then indexing (`upsert_chunks`) inside a
`try/except` whose handler sets `processing_status = "failed"`; control
then moves to the next document, and generation proceeds regardless.
External stage outcomes are oracles indexed by document id. -/

structure PDoc where
  id : Nat
  filename : String
  processing_status : String
  deriving DecidableEq, Repr

/-- The sequential stage chain of one document's pipeline:
download/extract/chunk, then embed, then index; the first exception
aborts the rest of the chain. -/
def runPipelineStages (extract embed index : Except String Unit) :
    Except String Unit := do
  let _ ← extract
  let _ ← embed
  index

/-- One document's processing with the `try/except` boundary: a successful
stage chain ends in `completed`, any exception is caught and recorded as
`failed`. -/
def processDocCaught (stage : Nat → Except String Unit) (d : PDoc) : PDoc :=
  match stage d.id with
  | .ok _ => { d with processing_status := "completed" }
  | .error _ => { d with processing_status := "failed" }

/-- The document loop of `generate_quiz`: every document whose status is
not `completed` is processed; already completed documents are skipped. -/
def processUnprocessedDocs (stage : Nat → Except String Unit)
    (docs : List PDoc) : List PDoc :=
  docs.map fun d =>
    if d.processing_status ≠ "completed" then processDocCaught stage d else d

/-- `generate_quiz` after the document loop: generation runs whatever the
per-document outcomes were; only a generation failure makes the call
fail. -/
def generateQuizFlow (stage : Nat → Except String Unit)
    (generate : Except String Nat) (docs : List PDoc) :
    Except String (List PDoc × Nat) :=
  let docs2 := processUnprocessedDocs stage docs
  match generate with
  | .ok q => .ok (docs2, q)
  | .error e => .error e

/-- The three per-document stage oracles combined into one pipeline
outcome per document id. -/
def pipelineStage (ex em ix : Nat → Except String Unit) (i : Nat) :
    Except String Unit :=
  runPipelineStages (ex i) (em i) (ix i)

/-- Claim C8: an exception at any stage (download/extract/chunk, embed,
index) marks that document `failed`; a clean run marks it `completed`; the
failure never propagates — the quiz-generation call still succeeds whenever
generation itself succeeds — and each document's outcome depends only on
its own stages (sibling independence, position by position). -/
theorem pipeline_failure_isolated (ex em ix : Nat → Except String Unit)
    (docs : List PDoc) (q : Nat) :
    generateQuizFlow (pipelineStage ex em ix) (.ok q) docs =
      .ok (processUnprocessedDocs (pipelineStage ex em ix) docs, q) ∧
    (∀ d : PDoc,
      ((∃ e, ex d.id = .error e) ∨ (∃ e, em d.id = .error e) ∨
          (∃ e, ix d.id = .error e)) →
        (processDocCaught (pipelineStage ex em ix) d).processing_status =
          "failed") ∧
    (∀ d : PDoc, ex d.id = .ok () → em d.id = .ok () → ix d.id = .ok () →
        (processDocCaught (pipelineStage ex em ix) d).processing_status =
          "completed") ∧
    (∀ i : Nat,
      (processUnprocessedDocs (pipelineStage ex em ix) docs)[i]? =
      (docs[i]?).map fun d =>
        if d.processing_status ≠ "completed" then
          processDocCaught (pipelineStage ex em ix) d
        else d) := by
  refine ⟨rfl, ?_, ?_, ?_⟩
  · intro d hfail
    have herr : ∃ e, pipelineStage ex em ix d.id = .error e := by
      rcases hfail with ⟨e, he⟩ | ⟨e, he⟩ | ⟨e, he⟩
      · exact ⟨e, by rw [pipelineStage, runPipelineStages, he]; rfl⟩
      · rcases hex : ex d.id with v | u
        · exact ⟨v, by rw [pipelineStage, runPipelineStages, hex]; rfl⟩
        · exact ⟨e, by rw [pipelineStage, runPipelineStages, hex, he]; rfl⟩
      · rcases hex : ex d.id with v | u
        · exact ⟨v, by rw [pipelineStage, runPipelineStages, hex]; rfl⟩
        · rcases hem : em d.id with w | u2
          · exact ⟨w, by
              rw [pipelineStage, runPipelineStages, hex, hem]; rfl⟩
          · exact ⟨e, by
              rw [pipelineStage, runPipelineStages, hex, hem, he]; rfl⟩
    rcases herr with ⟨e, he⟩
    simp [processDocCaught, he]
  · intro d h1 h2 h3
    have hok : pipelineStage ex em ix d.id = .ok () := by
      rw [pipelineStage, runPipelineStages, h1, h2, h3]; rfl
    simp [processDocCaught, hok]
  · intro i
    simp [processUnprocessedDocs, List.getElem?_map]

/-- Witness for C8: with the embed stage of document 1 failing and
document 2 clean, generation still succeeds, document 1 ends `failed`
and document 2 ends `completed`. -/
theorem pipeline_failure_isolated_witness :
    (processDocCaught (pipelineStage
        (fun _ => Except.ok ())
        (fun i => if i = 1 then Except.error "boom" else Except.ok ())
        (fun _ => Except.ok ()))
      ⟨1, "guide.pdf", "pending"⟩).processing_status = "failed" ∧
    (processDocCaught (pipelineStage
        (fun _ => Except.ok ())
        (fun i => if i = 1 then Except.error "boom" else Except.ok ())
        (fun _ => Except.ok ()))
      ⟨2, "faq.pdf", "pending"⟩).processing_status = "completed" ∧
    generateQuizFlow (pipelineStage
        (fun _ => Except.ok ())
        (fun i => if i = 1 then Except.error "boom" else Except.ok ())
        (fun _ => Except.ok ()))
      (.ok 7) [⟨1, "guide.pdf", "pending"⟩, ⟨2, "faq.pdf", "pending"⟩] =
      .ok ([⟨1, "guide.pdf", "failed"⟩, ⟨2, "faq.pdf", "completed"⟩], 7) := by
  have h := pipeline_failure_isolated
    (fun _ => Except.ok ())
    (fun i => if i = 1 then Except.error "boom" else Except.ok ())
    (fun _ => Except.ok ())
    [⟨1, "guide.pdf", "pending"⟩, ⟨2, "faq.pdf", "pending"⟩] 7
  refine ⟨?_, ?_, ?_⟩
  · exact h.2.1 ⟨1, "guide.pdf", "pending"⟩
      (Or.inr (Or.inl ⟨"boom", rfl⟩))
  · exact h.2.2.1 ⟨2, "faq.pdf", "pending"⟩ rfl rfl rfl
  · rw [h.1]; rfl

/-! ### Embedding service

Embeds `EmbeddingService.embed_texts`: empty input returns `[]` before
any API use; otherwise the texts are cut into batches of 100 and each
batch goes through `_embed_batch_with_retry` (3 attempts against the
provider, modelled as a deterministic oracle `api`; the backoff sleep has
no observable effect here). Vectors are lists of rationals. -/

/-- The batch slicing `texts[i:i+100]` of the `range(0, len, 100)` loop. -/
def chunksOf100 : List String → List (List String)
  | [] => []
  | a :: t => ((a :: t).take 100) :: chunksOf100 ((a :: t).drop 100)
  termination_by l => l.length
  decreasing_by
    simp [List.length_drop]
    omega

/-- `_embed_batch_with_retry`'s attempt loop with `n` retries remaining
after the current attempt. -/
def retryLoop (api : List String → Except String (List (List ℚ)))
    (texts : List String) : Nat → Except String (List (List ℚ))
  | 0 => api texts
  | n + 1 =>
    match api texts with
    | .ok v => .ok v
    | .error _ => retryLoop api texts n

/-- `_embed_batch_with_retry`: up to 3 attempts (2 retries after the
first); the last failure is re-raised. -/
def embedBatchWithRetry (api : List String → Except String (List (List ℚ)))
    (texts : List String) : Except String (List (List ℚ)) :=
  retryLoop api texts 2

/-- The accumulation loop of `embed_texts` over the batches
(`all_embeddings.extend(...)`); a batch failure aborts the call. -/
def embedTextsGo (api : List String → Except String (List (List ℚ))) :
    List (List String) → List (List ℚ) → Except String (List (List ℚ))
  | [], acc => .ok acc
  | b :: bs, acc =>
    match embedBatchWithRetry api b with
    | .ok es => embedTextsGo api bs (acc ++ es)
    | .error e => .error e

/-- `EmbeddingService.embed_texts`. -/
def embedTexts (api : List String → Except String (List (List ℚ)))
    (texts : List String) : Except String (List (List ℚ)) :=
  if texts.isEmpty then .ok []
  else embedTextsGo api (chunksOf100 texts) []

lemma chunksOf100_flatten : ∀ l : List String, (chunksOf100 l).flatten = l := by
  intro l
  induction l using chunksOf100.induct with
  | case1 => simp [chunksOf100]
  | case2 a t ih =>
    rw [chunksOf100, List.flatten_cons, ih]
    exact List.take_append_drop 100 (a :: t)

lemma embedBatchWithRetry_ok
    (api : List String → Except String (List (List ℚ)))
    (b : List String) (v : List (List ℚ)) (h : api b = .ok v) :
    embedBatchWithRetry api b = .ok v := by
  simp [embedBatchWithRetry, retryLoop, h]

lemma embedTextsGo_eq (api : List String → Except String (List (List ℚ)))
    (f : String → List ℚ) (h : ∀ b, api b = .ok (b.map f)) :
    ∀ (bs : List (List String)) (acc : List (List ℚ)),
      embedTextsGo api bs acc = .ok (acc ++ (bs.flatten).map f) := by
  intro bs
  induction bs with
  | nil => intro acc; simp [embedTextsGo]
  | cons b bs ih =>
    intro acc
    rw [embedTextsGo, embedBatchWithRetry_ok api b (b.map f) (h b)]
    simp [ih, List.map_append, List.append_assoc]

/-- Claim C9: `embed_texts` on the empty list returns the empty list
whatever the provider does (no network call is consulted), and when every
provider call answers the per-text contract (one vector per text, in
order), the result pairs each input position with its vector — in
particular it has the input's length. -/
theorem embed_texts_order_preserving :
    (∀ api : List String → Except String (List (List ℚ)),
      embedTexts api [] = .ok []) ∧
    (∀ (api : List String → Except String (List (List ℚ)))
        (f : String → List ℚ) (texts : List String),
      (∀ b, api b = .ok (b.map f)) →
        embedTexts api texts = .ok (texts.map f)) := by
  refine ⟨fun api => rfl, ?_⟩
  intro api f texts h
  match texts with
  | [] => rfl
  | a :: t =>
    rw [embedTexts]
    simp only [List.isEmpty_cons, Bool.false_eq_true, if_false]
    rw [embedTextsGo_eq api f h (chunksOf100 (a :: t)) [],
      chunksOf100_flatten]
    simp

/-- Witness for C9: a provider mapping each string to the singleton vector
of its length embeds `["ab", "c", ""]` to `[[2], [1], [0]]`, and the empty
input embeds to `[]` even under an always-failing provider. -/
theorem embed_texts_order_preserving_witness :
    embedTexts (fun b => .ok (b.map fun s => [(s.length : ℚ)]))
        ["ab", "c", ""] = .ok [[2], [1], [0]] ∧
    embedTexts (fun _ => .error "down") [] = .ok [] := by
  constructor
  · have h := embed_texts_order_preserving.2
      (fun b => .ok (b.map fun s => [(s.length : ℚ)]))
      (fun s => [(s.length : ℚ)]) ["ab", "c", ""] (fun b => rfl)
    rw [h]
    norm_num
    decide
  · exact embed_texts_order_preserving.1 (fun _ => .error "down")

/-! ### Diversity retrieval -/

/-- Modelled from the spec: `retrieve_with_randomization`, the retrieval
method `QuizGeneratorService.generate_quiz` calls, is absent from the
source tree (`retrieval_service.py` only defines
`retrieve_with_compression`). Per §4.6 the Diversity Retriever fetches a
candidate pool of size `3k` via nearest-neighbor search (or the available
maximum if smaller) — modelled as the first `3k` entries of the ranked
neighbor list `index`. -/
def nnPool (index : List String) (k : Nat) : List String :=
  index.take (3 * k)

/-- Modelled from the spec: the random selection of `k` results without
replacement from the pool. The RNG's draw is the oracle `draw`, a list of
pool positions; a without-replacement draw has `k` distinct in-range
positions, and every such draw is an admissible outcome (uniformity is
modelled by quantifying over all admissible draws). A pool with at most
`k` members is returned whole. -/
def retrieveWithRandomization (index : List String) (k : Nat)
    (draw : List Nat) : List String :=
  let pool := nnPool index k
  if pool.length ≤ k then pool
  else draw.filterMap fun i => pool[i]?

lemma filterMap_getElem_length (pool : List String) :
    ∀ draw : List Nat, (∀ i ∈ draw, i < pool.length) →
      (draw.filterMap fun i => pool[i]?).length = draw.length := by
  intro draw
  induction draw with
  | nil => intro _; simp
  | cons a t ih =>
    intro h
    have ha : a < pool.length := h a (by simp)
    rw [List.filterMap_cons, List.getElem?_eq_getElem ha]
    simp only [List.length_cons]
    rw [ih fun i hi => h i (by simp [hi])]

/-- Claim C1 (spec-modelled): the candidate pool has size `3k` capped by
the available maximum; a pool of at most `k` members is returned whole;
otherwise any admissible without-replacement draw of `k` positions yields
exactly `k` results, all drawn from the pool, at the drawn positions. -/
theorem retrieval_randomized_sampling (index : List String) (k : Nat)
    (draw : List Nat) :
    (nnPool index k).length = min (3 * k) index.length ∧
    ((nnPool index k).length ≤ k →
      retrieveWithRandomization index k draw = nnPool index k) ∧
    (k < (nnPool index k).length →
      draw.length = k → draw.Nodup →
      (∀ i ∈ draw, i < (nnPool index k).length) →
      (retrieveWithRandomization index k draw).length = k ∧
      (∀ x ∈ retrieveWithRandomization index k draw, x ∈ nnPool index k) ∧
      retrieveWithRandomization index k draw =
        draw.filterMap fun i => (nnPool index k)[i]?) := by
  refine ⟨by simp [nnPool], ?_, ?_⟩
  · intro hle
    simp [retrieveWithRandomization, hle]
  · intro hgt hlen hnodup hbound
    have hif : retrieveWithRandomization index k draw =
        draw.filterMap fun i => (nnPool index k)[i]? := by
      simp [retrieveWithRandomization, Nat.not_le.mpr hgt]
    refine ⟨?_, ?_, hif⟩
    · rw [hif, filterMap_getElem_length (nnPool index k) draw hbound, hlen]
    · intro x hx
      rw [hif] at hx
      rcases List.mem_filterMap.mp hx with ⟨i, _, hsome⟩
      exact List.getElem?_mem hsome

/-- Witness for C1: seven neighbors, `k = 2`: the pool is the top 6, and
the draw `[4, 1]` returns the 2 pool members at those positions. -/
theorem retrieval_randomized_sampling_witness :
    (retrieveWithRandomization ["a", "b", "c", "d", "e", "f", "g"] 2
      [4, 1]).length = 2 ∧
    retrieveWithRandomization ["a", "b", "c", "d", "e", "f", "g"] 2
      [4, 1] = ["e", "b"] := by
  have h := retrieval_randomized_sampling
    ["a", "b", "c", "d", "e", "f", "g"] 2 [4, 1]
  have h3 := h.2.2 (by decide) (by decide) (by decide) (by decide)
  exact ⟨h3.1, by rw [h3.2.2]; decide⟩

/-! ### Structured generation output: validation and persistence

Embeds the `QuizResponse` Pydantic schema
(`quizz_pydantic_models.py`) and the persistence tail of
`QuizGeneratorService.generate_quiz`. Each question in the response is
validated against the union
`MultipleChoiceQuestion | MultiSelectQuestion | TrueFalseQuestion`, whose
members differ only in the type of `correct_answer` (`str` vs
`List[str]`); `question_type` and `difficulty` must be members of their
enums. Nothing checks the question count, the type mix, or the number of
correct options of a multi-select question; the parsed questions are then
persisted as-is with `total_questions = len(questions)`. -/

/-- The JSON value in the `correct_answer` field of a raw generated
question: a string, an array of strings, or anything else. -/
inductive RawAnswer where
  | str (s : String)
  | arr (xs : List String)
  | other
  deriving DecidableEq, Repr

structure RawQuestion where
  question_text : String
  question_type : String
  options : List String
  difficulty : String
  domain : String
  explanation : String
  correct_answer : RawAnswer
  deriving DecidableEq, Repr

/-- A question accepted by the schema, as persisted to the `Question`
row. -/
structure ParsedQuestion where
  question_text : String
  question_type : String
  options : List String
  difficulty : String
  domain : String
  explanation : String
  correct_answer : AnsVal
  deriving DecidableEq, Repr

def validQuestionType (s : String) : Bool :=
  s == "multiple_choice" || s == "multi_select" || s == "true_false"

def validDifficulty (s : String) : Bool :=
  s == "easy" || s == "medium" || s == "hard"

/-- Pydantic validation of one question against the union: enum fields
must be valid and `correct_answer` must be a string (first two union
members) or a list of strings (`MultiSelectQuestion`); anything else is a
validation failure. -/
def parseQuestion (r : RawQuestion) : Option ParsedQuestion :=
  if validQuestionType r.question_type && validDifficulty r.difficulty then
    match r.correct_answer with
    | .str s => some ⟨r.question_text, r.question_type, r.options,
        r.difficulty, r.domain, r.explanation, .str s⟩
    | .arr xs => some ⟨r.question_text, r.question_type, r.options,
        r.difficulty, r.domain, r.explanation, .list xs⟩
    | .other => Option.none
  else Option.none

/-- `QuizResponse` validation: every listed question must parse; a single
invalid question fails the whole response (the generation call raises). -/
def parseQuizResponse : List RawQuestion → Option (List ParsedQuestion)
  | [] => some []
  | r :: rs =>
    match parseQuestion r, parseQuizResponse rs with
    | some q, some qs => some (q :: qs)
    | _, _ => Option.none

/-- The persisted quiz shell plus its question rows
(`total_questions = len(quiz_response.questions)`). -/
structure QuizRow where
  difficulty : String
  total_questions : Nat
  questions : List ParsedQuestion
  deriving DecidableEq, Repr

def persistQuiz (difficulty : String) (qs : List ParsedQuestion) : QuizRow :=
  { difficulty := difficulty, total_questions := qs.length, questions := qs }

/-- The generation tail of `generate_quiz`: parse the structured output,
and persist whatever parsed; a parse failure propagates (no quiz row). -/
def generateQuizResult (difficulty : String) (rs : List RawQuestion) :
    Option QuizRow :=
  (parseQuizResponse rs).map (persistQuiz difficulty)

/-- Counterexample to claim C2: a structurally well-typed response with a
single question — not 5, and with no multi-select — is accepted by the
schema and persisted with `total_questions = 1`; likewise a response whose
multi-select question has exactly one correct option is accepted. -/
theorem quiz_response_validation_counterexample :
    (parseQuizResponse
      [⟨"What is S3?", "multiple_choice", ["A", "B", "C", "D"], "easy",
        "S3", "because", .str "A"⟩]).isSome = true ∧
    Option.map QuizRow.total_questions
      (generateQuizResult "easy"
        [⟨"What is S3?", "multiple_choice", ["A", "B", "C", "D"], "easy",
          "S3", "because", .str "A"⟩]) = some 1 ∧
    (parseQuizResponse
      [⟨"Pick services", "multi_select", ["A", "B", "C"], "easy",
        "EC2", "because", .arr ["A"]⟩]).isSome = true := by
  refine ⟨rfl, rfl, rfl⟩

/-- Claim C2 as amended: the structured result is accepted iff every
question is structurally well-typed (valid enum fields and a string or
string-list `correct_answer`); a validation failure yields no persisted
quiz; an accepted result is persisted in full, whatever its question
count or type mix, with `total_questions` equal to the number of parsed
questions. -/
theorem quiz_response_validation (d : String) (rs : List RawQuestion) :
    ((parseQuizResponse rs).isSome ↔
      ∀ r ∈ rs, validQuestionType r.question_type = true ∧
        validDifficulty r.difficulty = true ∧ r.correct_answer ≠ .other) ∧
    (parseQuizResponse rs = Option.none →
      generateQuizResult d rs = Option.none) ∧
    (∀ qs, parseQuizResponse rs = some qs →
      generateQuizResult d rs = some (persistQuiz d qs) ∧
      (persistQuiz d qs).total_questions = qs.length ∧
      qs.length = rs.length) := by
  refine ⟨?_, ?_, ?_⟩
  · induction rs with
    | nil => simp [parseQuizResponse]
    | cons r rs ih =>
      have hone : (parseQuestion r).isSome = true ↔
          (validQuestionType r.question_type = true ∧
            validDifficulty r.difficulty = true ∧
            r.correct_answer ≠ .other) := by
        rcases hca : r.correct_answer with s | xs | _ <;>
          cases h1 : validQuestionType r.question_type <;>
          cases h2 : validDifficulty r.difficulty <;>
          simp [parseQuestion, hca, h1, h2]
      constructor
      · intro hsome
        rcases hq : parseQuestion r with _ | q
        · rw [parseQuizResponse, hq] at hsome; simp at hsome
        · rcases hqs : parseQuizResponse rs with _ | qs
          · rw [parseQuizResponse, hq, hqs] at hsome; simp at hsome
          · intro x hx
            rcases List.mem_cons.mp hx with hx | hx
            · subst hx
              exact hone.mp (by rw [hq]; rfl)
            · exact (ih.mp (by rw [hqs]; rfl)) x hx
      · intro hall
        have hq : (parseQuestion r).isSome = true :=
          hone.mpr (hall r (by simp))
        have hqs : (parseQuizResponse rs).isSome = true :=
          ih.mpr fun x hx => hall x (by simp [hx])
        rcases hq2 : parseQuestion r with _ | q
        · rw [hq2] at hq; simp at hq
        · rcases hqs2 : parseQuizResponse rs with _ | qs
          · rw [hqs2] at hqs; simp at hqs
          · rw [parseQuizResponse, hq2, hqs2]; rfl
  · intro h
    simp [generateQuizResult, h]
  · intro qs hqs
    refine ⟨by simp [generateQuizResult, hqs], rfl, ?_⟩
    clear d
    induction rs generalizing qs with
    | nil =>
      rw [parseQuizResponse] at hqs
      cases hqs; rfl
    | cons r rs ih =>
      rw [parseQuizResponse] at hqs
      rcases hq : parseQuestion r with _ | q <;> rw [hq] at hqs
      · simp at hqs
      · rcases hrs : parseQuizResponse rs with _ | qs2 <;>
          rw [hrs] at hqs
        · simp at hqs
        · cases hqs
          simp [ih qs2 hrs]

/-- Witness for C2 (amended): a well-typed 2-question response is accepted
and persisted with `total_questions = 2`, and a response containing an
ill-typed `correct_answer` is rejected with nothing persisted. -/
theorem quiz_response_validation_witness :
    generateQuizResult "easy"
      [⟨"Q1", "multiple_choice", ["A", "B"], "easy", "EC2", "e1", .str "A"⟩,
       ⟨"Q2", "multi_select", ["A", "B", "C"], "easy", "IAM", "e2",
         .arr ["A", "B"]⟩] =
      some (persistQuiz "easy"
        [⟨"Q1", "multiple_choice", ["A", "B"], "easy", "EC2", "e1", .str "A"⟩,
         ⟨"Q2", "multi_select", ["A", "B", "C"], "easy", "IAM", "e2",
           .list ["A", "B"]⟩]) ∧
    generateQuizResult "easy"
      [⟨"Q1", "multiple_choice", ["A", "B"], "easy", "EC2", "e1",
        .other⟩] = Option.none := by
  constructor
  · exact ((quiz_response_validation "easy"
      [⟨"Q1", "multiple_choice", ["A", "B"], "easy", "EC2", "e1", .str "A"⟩,
       ⟨"Q2", "multi_select", ["A", "B", "C"], "easy", "IAM", "e2",
         .arr ["A", "B"]⟩]).2.2
      [⟨"Q1", "multiple_choice", ["A", "B"], "easy", "EC2", "e1", .str "A"⟩,
       ⟨"Q2", "multi_select", ["A", "B", "C"], "easy", "IAM", "e2",
         .list ["A", "B"]⟩] rfl).1
  · exact (quiz_response_validation "easy"
      [⟨"Q1", "multiple_choice", ["A", "B"], "easy", "EC2", "e1",
        .other⟩]).2.1 rfl

end MindQuest
